import Mathlib

/-!
Shallow embedding of the inference layer of the NLPTest repository
(`src/inference.py`): two text-analysis backends (a transformer backend and
a TF-IDF fallback) that each map an input string to an analysis result
`{sentiment: {label, score}, toxicity}`, plus the factory `from_env` that
selects between them.  External model artifacts (the HuggingFace pipelines
and the fitted vectorizer/classifier) are abstracted as total functions
supplied as parameters; the arithmetic transforms of the Python code are
embedded over the real numbers.
-/

namespace NLPTest

/-- Result of one pipeline call: HuggingFace pipelines return a top
`{label, score}` pair (`sentiment_result`, `toxicity_result` in the code). -/
structure PipelineOutput where
  label : String
  score : ℝ

/-- The common result shape returned by `analyze` in both backends:
`{"sentiment": {"label": ..., "score": ...}, "toxicity": ...}`. -/
structure SentimentResult where
  label : String
  score : ℝ

structure AnalysisResult where
  sentiment : SentimentResult
  toxicity : ℝ

/-- The sigmoid / logistic transform `1 / (1 + np.exp(-x))` used by the
TF-IDF backend for both the sentiment probability and the toxicity score. -/
noncomputable def sigmoid (x : ℝ) : ℝ := 1 / (1 + Real.exp (-x))

/-- `isPrefixChars w t` : the character list `w` is an initial segment of `t`. -/
def isPrefixChars : List Char → List Char → Bool
  | [], _ => true
  | _ :: _, [] => false
  | a :: as, b :: bs => a = b && isPrefixChars as bs

/-- `hasSubstring w t` : `w` occurs as a contiguous substring of `t`;
this embeds Python's `word in text_lower` substring test. -/
def hasSubstring (w : List Char) : List Char → Bool
  | [] => isPrefixChars w []
  | c :: ts => isPrefixChars w (c :: ts) || hasSubstring w (ts)

/-- Python's `str.lower()` on the character sequence (ASCII case mapping,
as `Char.toLower`); used both for `text.lower()` in `TfidfBackend.analyze`
and for `.lower()` on the environment value in `from_env`. -/
def lowerString (s : String) : String := String.mk (s.data.map Char.toLower)

/-- The fixed toxic keyword dictionary `self.toxic_keywords` of
`TfidfBackend.__init__` (a 16-element set; embedded as the list of its
elements in source order — only membership/count is ever used). -/
def toxic_keywords : List String :=
  ["stupid", "idiot", "hate", "kill", "moron", "dumb",
   "trash", "horrible", "awful", "terrible", "worst",
   "useless", "pathetic", "loser", "fool", "jerk"]

/-- `toxic_count` of `TfidfBackend.analyze`:
`sum(1 for word in self.toxic_keywords if word in text_lower)` with
`text_lower = text.lower()`. -/
def toxic_count (text : String) : Nat :=
  toxic_keywords.countP (fun w => hasSubstring w.toList (lowerString text).toList)

/-- The TF-IDF model artifacts, abstracting the composition of the fitted
vectorizer and linear classifier: `predict` is
`classifier.predict(vectorizer.transform([text]))[0]` and
`decision_function` is
`classifier.decision_function(vectorizer.transform([text]))[0]`. -/
structure TfidfModel where
  predict : String → String
  decision_function : String → ℝ

namespace TfidfBackend

/-- `TfidfBackend.analyze` from `src/inference.py`, parameterized by the
loaded model artifacts `m`. -/
noncomputable def analyze (m : TfidfModel) (text : String) : AnalysisResult :=
  let prediction := m.predict text
  let decision_scores := m.decision_function text
  let prob := 1 / (1 + Real.exp (-decision_scores))
  let label := if prediction = "positive" then "POSITIVE" else "NEGATIVE"
  let score := if prediction = "positive" then prob else 1 - prob
  let toxicity_raw := (toxic_count text : ℝ) / 3
  let toxicity_score := 1 / (1 + Real.exp (-toxicity_raw))
  { sentiment := { label := label, score := score }, toxicity := toxicity_score }

/-- `TfidfBackend.backend_name`. -/
def backend_name : String := "tfidf"

end TfidfBackend

/-- The transformer model artifacts: the two HuggingFace pipelines, each
abstracted as a total function returning the top `{label, score}` element
of the pipeline's output list. -/
structure TransformerModel where
  sentiment_pipeline : String → PipelineOutput
  toxicity_pipeline : String → PipelineOutput

namespace TransformerBackend

/-- `TransformerBackend.analyze` from `src/inference.py`, parameterized by
the loaded pipelines `m`. -/
def analyze (m : TransformerModel) (text : String) : AnalysisResult :=
  let sentiment_result := m.sentiment_pipeline text
  let toxicity_result := m.toxicity_pipeline text
  let toxicity_score :=
    if toxicity_result.label = "toxic" then toxicity_result.score
    else 1 - toxicity_result.score
  { sentiment := { label := sentiment_result.label, score := sentiment_result.score },
    toxicity := toxicity_score }

/-- `TransformerBackend.backend_name`. -/
def backend_name : String := "transformer"

end TransformerBackend

/-- Which concrete backend the factory constructs. -/
inductive BackendKind
  | transformer
  | tfidf
  deriving DecidableEq

namespace InferenceService

/-- `InferenceService.from_env`: the environment lookup
`os.getenv("MODEL_BACKEND", "transformer")` is passed in as
`env : Option String` (`none` = variable unset). -/
def from_env (env : Option String) : BackendKind :=
  let backend := lowerString (env.getD "transformer")
  if backend = "tfidf" then BackendKind.tfidf else BackendKind.transformer

end InferenceService

/-! ### Helper lemmas about the sigmoid -/

theorem one_add_exp_pos (x : ℝ) : 0 < 1 + Real.exp x := by positivity

theorem sigmoid_pos (x : ℝ) : 0 < sigmoid x := by
  unfold sigmoid
  positivity

theorem sigmoid_lt_one (x : ℝ) : sigmoid x < 1 := by
  unfold sigmoid
  rw [div_lt_one (one_add_exp_pos (-x))]
  linarith [Real.exp_pos (-x)]

theorem sigmoid_nonneg (x : ℝ) : 0 ≤ sigmoid x := (sigmoid_pos x).le

theorem sigmoid_le_one (x : ℝ) : sigmoid x ≤ 1 := (sigmoid_lt_one x).le

theorem sigmoid_zero : sigmoid 0 = 1 / 2 := by
  unfold sigmoid
  rw [neg_zero, Real.exp_zero]
  norm_num

theorem sigmoid_mono {x y : ℝ} (h : x ≤ y) : sigmoid x ≤ sigmoid y := by
  unfold sigmoid
  have hexp : Real.exp (-y) ≤ Real.exp (-x) := Real.exp_le_exp.mpr (neg_le_neg h)
  have hy : 0 < 1 + Real.exp (-y) := one_add_exp_pos (-y)
  apply one_div_le_one_div_of_le hy
  linarith

/-- A concrete TF-IDF model that always predicts "positive" with decision
score 0, used as witness data. -/
def posModel : TfidfModel := ⟨fun _ => "positive", fun _ => 0⟩

/-- A concrete TF-IDF model that always predicts "negative" with decision
score 0, used as witness data. -/
def negModel : TfidfModel := ⟨fun _ => "negative", fun _ => 0⟩

/-- A concrete transformer model used as witness data. -/
def demoTransformer : TransformerModel :=
  ⟨fun _ => ⟨"POSITIVE", 1⟩, fun _ => ⟨"toxic", 0⟩⟩

/-! ### Claims -/

/-- C1: for every input text, the TF-IDF backend's `analyze(text).toxicity`
equals the logistic function applied to `count / 3.0`, where `count` is the
number of case-insensitive substring matches of the text against the fixed
16-word toxic-keyword set, each keyword contributing according to its
substring presence in the lowercased text. -/
theorem tfidf_toxicity_is_logistic_of_keyword_count (m : TfidfModel) (text : String) :
    (TfidfBackend.analyze m text).toxicity =
      sigmoid (((["stupid", "idiot", "hate", "kill", "moron", "dumb",
        "trash", "horrible", "awful", "terrible", "worst",
        "useless", "pathetic", "loser", "fool", "jerk"].countP
          (fun w => hasSubstring w.toList (lowerString text).toList) : ℕ) : ℝ) / 3) :=
  rfl

/-- C2: for the TF-IDF backend, a text with zero toxic-keyword matches gets
toxicity exactly `logistic 0 = 0.5`, and a text containing at least 3
keywords from the fixed set gets toxicity at least `logistic 1`. -/
theorem tfidf_toxicity_extremes (m : TfidfModel) (text : String) :
    (toxic_count text = 0 → (TfidfBackend.analyze m text).toxicity = 1 / 2) ∧
    (3 ≤ toxic_count text → sigmoid 1 ≤ (TfidfBackend.analyze m text).toxicity) := by
  have hT : (TfidfBackend.analyze m text).toxicity =
      sigmoid ((toxic_count text : ℝ) / 3) := rfl
  constructor
  · intro h
    rw [hT, h]
    simp [sigmoid_zero]
  · intro h
    rw [hT]
    apply sigmoid_mono
    have h3 : (3 : ℝ) ≤ (toxic_count text : ℝ) := by exact_mod_cast h
    linarith

/-- Witness for C2 at concrete inputs: "hello" matches no keyword,
"stupid idiot hate" matches three. -/
theorem tfidf_toxicity_extremes_witness :
    (TfidfBackend.analyze posModel "hello").toxicity = 1 / 2 ∧
    sigmoid 1 ≤ (TfidfBackend.analyze posModel "stupid idiot hate").toxicity :=
  ⟨(tfidf_toxicity_extremes posModel "hello").1 (by decide),
   (tfidf_toxicity_extremes posModel "stupid idiot hate").2 (by decide)⟩

/-- C3: the TF-IDF backend's sentiment: predicted class "positive" gives
label POSITIVE with score `sigmoid decision`; any other prediction gives
label NEGATIVE with score `1 - sigmoid decision`; round-trip: label
POSITIVE implies score equals `sigmoid decision` exactly. -/
theorem tfidf_sentiment_branches (m : TfidfModel) (text : String) :
    (m.predict text = "positive" →
      (TfidfBackend.analyze m text).sentiment.label = "POSITIVE" ∧
      (TfidfBackend.analyze m text).sentiment.score = sigmoid (m.decision_function text)) ∧
    (m.predict text ≠ "positive" →
      (TfidfBackend.analyze m text).sentiment.label = "NEGATIVE" ∧
      (TfidfBackend.analyze m text).sentiment.score = 1 - sigmoid (m.decision_function text)) ∧
    ((TfidfBackend.analyze m text).sentiment.label = "POSITIVE" →
      (TfidfBackend.analyze m text).sentiment.score = sigmoid (m.decision_function text)) := by
  have hlabel : (TfidfBackend.analyze m text).sentiment.label =
      (if m.predict text = "positive" then "POSITIVE" else "NEGATIVE") := rfl
  have hscore : (TfidfBackend.analyze m text).sentiment.score =
      (if m.predict text = "positive" then sigmoid (m.decision_function text)
       else 1 - sigmoid (m.decision_function text)) := rfl
  by_cases h : m.predict text = "positive"
  · simp [hlabel, hscore, h]
  · simp [hlabel, hscore, h]

/-- Witness for C3: a model predicting "positive" and one predicting
"negative", each applied to a concrete text. -/
theorem tfidf_sentiment_branches_witness :
    ((TfidfBackend.analyze posModel "x").sentiment.label = "POSITIVE" ∧
     (TfidfBackend.analyze posModel "x").sentiment.score =
       sigmoid (posModel.decision_function "x")) ∧
    ((TfidfBackend.analyze negModel "x").sentiment.label = "NEGATIVE" ∧
     (TfidfBackend.analyze negModel "x").sentiment.score =
       1 - sigmoid (negModel.decision_function "x")) ∧
    (TfidfBackend.analyze posModel "x").sentiment.score =
      sigmoid (posModel.decision_function "x") :=
  ⟨(tfidf_sentiment_branches posModel "x").1 rfl,
   (tfidf_sentiment_branches negModel "x").2.1 (by decide),
   (tfidf_sentiment_branches posModel "x").2.2
     ((tfidf_sentiment_branches posModel "x").1 rfl).1⟩

/-- C4: the transformer backend copies the sentiment pipeline's top
label/score verbatim, and maps the toxicity pipeline's output to its score
when the label is "toxic" and to 1 minus its score otherwise. -/
theorem transformer_analyze_shape (m : TransformerModel) (text : String) :
    (TransformerBackend.analyze m text).sentiment.label = (m.sentiment_pipeline text).label ∧
    (TransformerBackend.analyze m text).sentiment.score = (m.sentiment_pipeline text).score ∧
    (TransformerBackend.analyze m text).toxicity =
      (if (m.toxicity_pipeline text).label = "toxic" then (m.toxicity_pipeline text).score
       else 1 - (m.toxicity_pipeline text).score) :=
  ⟨rfl, rfl, rfl⟩

/-- C5: for non-empty text and both backends, the sentiment score and the
toxicity lie in [0,1]; for the transformer backend under the hypothesis
that the underlying pipelines return scores in [0,1]. -/
theorem analyze_scores_in_unit_interval (tm : TransformerModel) (m : TfidfModel)
    (text : String) (hne : text ≠ "")
    (hs0 : 0 ≤ (tm.sentiment_pipeline text).score)
    (hs1 : (tm.sentiment_pipeline text).score ≤ 1)
    (ht0 : 0 ≤ (tm.toxicity_pipeline text).score)
    (ht1 : (tm.toxicity_pipeline text).score ≤ 1) :
    (0 ≤ (TfidfBackend.analyze m text).sentiment.score ∧
      (TfidfBackend.analyze m text).sentiment.score ≤ 1) ∧
    (0 ≤ (TfidfBackend.analyze m text).toxicity ∧
      (TfidfBackend.analyze m text).toxicity ≤ 1) ∧
    (0 ≤ (TransformerBackend.analyze tm text).sentiment.score ∧
      (TransformerBackend.analyze tm text).sentiment.score ≤ 1) ∧
    (0 ≤ (TransformerBackend.analyze tm text).toxicity ∧
      (TransformerBackend.analyze tm text).toxicity ≤ 1) := by
  have hscore : (TfidfBackend.analyze m text).sentiment.score =
      (if m.predict text = "positive" then sigmoid (m.decision_function text)
       else 1 - sigmoid (m.decision_function text)) := rfl
  have hT : (TfidfBackend.analyze m text).toxicity =
      sigmoid ((toxic_count text : ℝ) / 3) := rfl
  have hts : (TransformerBackend.analyze tm text).sentiment.score =
      (tm.sentiment_pipeline text).score := rfl
  have htt : (TransformerBackend.analyze tm text).toxicity =
      (if (tm.toxicity_pipeline text).label = "toxic" then (tm.toxicity_pipeline text).score
       else 1 - (tm.toxicity_pipeline text).score) := rfl
  refine ⟨?_, ?_, ?_, ?_⟩
  · rw [hscore]
    split
    · exact ⟨sigmoid_nonneg _, sigmoid_le_one _⟩
    · constructor
      · linarith [sigmoid_le_one (m.decision_function text)]
      · linarith [sigmoid_nonneg (m.decision_function text)]
  · rw [hT]
    exact ⟨sigmoid_nonneg _, sigmoid_le_one _⟩
  · rw [hts]
    exact ⟨hs0, hs1⟩
  · rw [htt]
    split
    · exact ⟨ht0, ht1⟩
    · constructor <;> linarith

/-- Witness for C5 at concrete models and the non-empty text "test". -/
theorem analyze_scores_in_unit_interval_witness :
    (0 ≤ (TfidfBackend.analyze posModel "test").sentiment.score ∧
      (TfidfBackend.analyze posModel "test").sentiment.score ≤ 1) ∧
    (0 ≤ (TfidfBackend.analyze posModel "test").toxicity ∧
      (TfidfBackend.analyze posModel "test").toxicity ≤ 1) ∧
    (0 ≤ (TransformerBackend.analyze demoTransformer "test").sentiment.score ∧
      (TransformerBackend.analyze demoTransformer "test").sentiment.score ≤ 1) ∧
    (0 ≤ (TransformerBackend.analyze demoTransformer "test").toxicity ∧
      (TransformerBackend.analyze demoTransformer "test").toxicity ≤ 1) :=
  analyze_scores_in_unit_interval demoTransformer posModel "test" (by decide)
    (by norm_num [demoTransformer]) (by norm_num [demoTransformer])
    (by norm_num [demoTransformer]) (by norm_num [demoTransformer])

/-- C6: backend identity is a fixed constant (each `backend_name` is a
constant definition carrying no mutable state in the embedding, so no
operation, `analyze` included, can change it), equal to "transformer" for
the transformer backend and "tfidf" for the TF-IDF backend, and in both
cases one of {"transformer", "tfidf"}. -/
theorem backend_identity_constant :
    TransformerBackend.backend_name = "transformer" ∧
    TfidfBackend.backend_name = "tfidf" ∧
    TransformerBackend.backend_name ∈ (["transformer", "tfidf"] : List String) ∧
    TfidfBackend.backend_name ∈ (["transformer", "tfidf"] : List String) := by
  refine ⟨rfl, rfl, ?_, ?_⟩ <;>
    simp [TransformerBackend.backend_name, TfidfBackend.backend_name]

/-- C7: `from_env` reads one value (default "transformer") and returns the
TF-IDF backend exactly when the lowercased value is "tfidf", the
transformer backend in every other case; the two outcomes are mutually
exclusive and cover all cases. -/
theorem from_env_selects_backend (env : Option String) :
    (InferenceService.from_env env = BackendKind.tfidf ↔
      lowerString (env.getD "transformer") = "tfidf") ∧
    (InferenceService.from_env env = BackendKind.tfidf ∨
      InferenceService.from_env env = BackendKind.transformer) ∧
    ¬(InferenceService.from_env env = BackendKind.tfidf ∧
      InferenceService.from_env env = BackendKind.transformer) ∧
    InferenceService.from_env none = BackendKind.transformer := by
  refine ⟨?_, ?_, ?_, by decide⟩
  · by_cases h : lowerString (env.getD "transformer") = "tfidf" <;>
      simp [InferenceService.from_env, h]
  · by_cases h : lowerString (env.getD "transformer") = "tfidf" <;>
      simp [InferenceService.from_env, h]
  · rintro ⟨h1, h2⟩
    rw [h1] at h2
    exact BackendKind.noConfusion h2

/-- C8: for every non-empty input made only of non-letter (e.g.
punctuation) characters, the TF-IDF backend's `analyze` is total and
returns a well-formed result: a POSITIVE/NEGATIVE label and scores in
[0,1] (the external vectorizer/classifier calls are abstracted as total
functions; the embedded computation has no failing branch). -/
theorem tfidf_punctuation_only_wellformed (m : TfidfModel) (text : String)
    (hne : text ≠ "") (hpunct : ∀ c ∈ text.toList, ¬ c.isAlpha) :
    ((TfidfBackend.analyze m text).sentiment.label = "POSITIVE" ∨
      (TfidfBackend.analyze m text).sentiment.label = "NEGATIVE") ∧
    (0 ≤ (TfidfBackend.analyze m text).sentiment.score ∧
      (TfidfBackend.analyze m text).sentiment.score ≤ 1) ∧
    (0 ≤ (TfidfBackend.analyze m text).toxicity ∧
      (TfidfBackend.analyze m text).toxicity ≤ 1) := by
  have hlabel : (TfidfBackend.analyze m text).sentiment.label =
      (if m.predict text = "positive" then "POSITIVE" else "NEGATIVE") := rfl
  have hscore : (TfidfBackend.analyze m text).sentiment.score =
      (if m.predict text = "positive" then sigmoid (m.decision_function text)
       else 1 - sigmoid (m.decision_function text)) := rfl
  have hT : (TfidfBackend.analyze m text).toxicity =
      sigmoid ((toxic_count text : ℝ) / 3) := rfl
  refine ⟨?_, ?_, ?_⟩
  · rw [hlabel]
    split
    · exact Or.inl rfl
    · exact Or.inr rfl
  · rw [hscore]
    split
    · exact ⟨sigmoid_nonneg _, sigmoid_le_one _⟩
    · constructor
      · linarith [sigmoid_le_one (m.decision_function text)]
      · linarith [sigmoid_nonneg (m.decision_function text)]
  · rw [hT]
    exact ⟨sigmoid_nonneg _, sigmoid_le_one _⟩

/-- Witness for C8 at the punctuation-only input "!!!". -/
theorem tfidf_punctuation_only_wellformed_witness :
    ((TfidfBackend.analyze posModel "!!!").sentiment.label = "POSITIVE" ∨
      (TfidfBackend.analyze posModel "!!!").sentiment.label = "NEGATIVE") ∧
    (0 ≤ (TfidfBackend.analyze posModel "!!!").sentiment.score ∧
      (TfidfBackend.analyze posModel "!!!").sentiment.score ≤ 1) ∧
    (0 ≤ (TfidfBackend.analyze posModel "!!!").toxicity ∧
      (TfidfBackend.analyze posModel "!!!").toxicity ≤ 1) :=
  tfidf_punctuation_only_wellformed posModel "!!!" (by decide) (by decide)

/-- C9: the TF-IDF toxicity is always at least 1/2 (so no text is ever
scored below 0.5), at most `logistic (16/3)` (the keyword count is at most
16), and strictly below 1. -/
theorem tfidf_toxicity_range (m : TfidfModel) (text : String) :
    1 / 2 ≤ (TfidfBackend.analyze m text).toxicity ∧
    (TfidfBackend.analyze m text).toxicity ≤ sigmoid (16 / 3) ∧
    (TfidfBackend.analyze m text).toxicity < 1 := by
  have hT : (TfidfBackend.analyze m text).toxicity =
      sigmoid ((toxic_count text : ℝ) / 3) := rfl
  have hcount : toxic_count text ≤ 16 := List.countP_le_length _
  refine ⟨?_, ?_, ?_⟩
  · rw [hT, ← sigmoid_zero]
    exact sigmoid_mono (by positivity)
  · rw [hT]
    apply sigmoid_mono
    have h16 : (toxic_count text : ℝ) ≤ 16 := by exact_mod_cast hcount
    linarith
  · rw [hT]
    exact sigmoid_lt_one _

/-- C10: `from_env` never rejects an unrecognized value: whenever the
lowercased value differs from "tfidf" (e.g. "TF-IDF" or "bert"), the
transformer backend is constructed rather than an error raised. -/
theorem from_env_unrecognized_defaults_to_transformer (s : String)
    (h : lowerString s ≠ "tfidf") :
    InferenceService.from_env (some s) = BackendKind.transformer := by
  simp [InferenceService.from_env, h]

/-- Witness for C10 at the misspelled value "TF-IDF". -/
theorem from_env_unrecognized_defaults_to_transformer_witness :
    InferenceService.from_env (some "TF-IDF") = BackendKind.transformer :=
  from_env_unrecognized_defaults_to_transformer "TF-IDF" (by decide)

end NLPTest
